import Mathlib

/-!
Verification of the ChromeRecovery extraction-and-normalization pipeline
(`recover.py`): profile validation, bookmark / history / tab extraction,
the HTML dashboard renderer and the Netscape bookmark exporter, shallowly
embedded in Lean.  File-system reads, the SQLite engine and the SNSS
binary decoder are external collaborators: their outcomes are inputs to
the embedded functions (a missing file is `none`, a parse/query failure is
`.error`, a successful read is `.ok` with the decoded value).
-/

namespace ChromeRecovery

/-- A JSON value, the shape of Chrome's `Bookmarks` document after
`json.load`.  Objects keep their key/value pairs in source order, as
Python dicts do. -/
inductive Json where
  | null : Json
  | bool (b : Bool) : Json
  | num (n : Int) : Json
  | str (s : String) : Json
  | arr (elems : List Json) : Json
  | obj (fields : List (String × Json)) : Json

/-- Association-list lookup, modelling Python `dict.get(key)` (keys in a
parsed JSON object are unique, so first match is the match). -/
def lookupField : List (String × Json) → String → Option Json
  | [], _ => none
  | (k, v) :: rest, key => if k = key then some v else lookupField rest key

/-- `node.get(key)` on a JSON value: a lookup when the value is an
object, `none` otherwise. -/
def Json.get : Json → String → Option Json
  | .obj fields, key => lookupField fields key
  | _, _ => none

/-- Python truthiness restricted to JSON-representable values, modelling
`if bookmarks_roots:` / `if tabs:` style tests. -/
def pyTruthy : Json → Bool
  | .null => false
  | .bool b => b
  | .num n => n != 0
  | .str s => s != ""
  | .arr l => !l.isEmpty
  | .obj l => !l.isEmpty

/-- The items of a JSON object (`dict.items()`); non-objects have none
(the script would raise on a non-dict `roots`, a case outside every
claim). -/
def Json.items : Json → List (String × Json)
  | .obj fields => fields
  | _ => []

/-! ### HTML escaping (`esc`, i.e. `html.escape(str(text), quote=True)`)

`html.escape` performs the replacements `& → &amp;`, `< → &lt;`,
`> → &gt;`, `" → &quot;`, `' → &#x27;`, ampersand first.  Because no
replacement string contains a character replaced by a later pass, the
sequential replacement is exactly the character-wise expansion below. -/

/-- The single-quote character (code 39). -/
def quoteChar : Char := Char.ofNat 39

/-- Expansion of one character under `html.escape(·, quote=True)`. -/
def escChar (c : Char) : List Char :=
  if c = '&' then "&amp;".data
  else if c = '<' then "&lt;".data
  else if c = '>' then "&gt;".data
  else if c = '"' then "&quot;".data
  else if c = quoteChar then "&#x27;".data
  else [c]

/-- `esc(text)` from the script: HTML-escape a string. -/
def esc (s : String) : String := ⟨s.data.flatMap escChar⟩

/-- The characters that must never appear raw in escaped output. -/
def isRawSpecial (c : Char) : Bool :=
  c = '<' || c = '>' || c = '"' || c = quoteChar

/-- A character list is in escaped form: it contains no raw
`< > " '`, and every `&` starts one of the five entities produced by
`html.escape`. -/
def escapedForm : List Char → Bool
  | [] => true
  | c :: rest =>
    (if c = '&' then
      ("amp;".data.isPrefixOf rest || "lt;".data.isPrefixOf rest ||
       "gt;".data.isPrefixOf rest || "quot;".data.isPrefixOf rest ||
       "#x27;".data.isPrefixOf rest)
    else !isRawSpecial c) && escapedForm rest

/-! ### Profile validation -/

/-- The marker files a Chrome profile must contain (`EXPECTED_FILES`). -/
def EXPECTED_FILES : List String := ["Bookmarks", "History"]

/-- Order in which candidate snapshot files are declared
(`SESSION_FILES`; the extraction order below is a different list). -/
def SESSION_FILES : List String :=
  ["Current Session", "Current Tabs", "Last Session", "Last Tabs"]

/-- One history row as fetched from the `urls` table:
`(url, title, last_visit_time)`; the title column is nullable. -/
def HRow : Type := String × Option String × Int

/-- One entry yielded by iterating an `SnssFile`: a `NavigationEntry`
with its `url` and nullable `title`, or any other entry kind (skipped
by the `isinstance` filter). -/
inductive SnssEntry where
  | nav (url : String) (title : Option String) : SnssEntry
  | other : SnssEntry
deriving DecidableEq

/-- Outcome of opening and decoding one snapshot candidate file:
the file is absent, the decoder raised, or it yielded a stream of
entries. -/
inductive SnapState where
  | missing : SnapState
  | decodeError : SnapState
  | ok (entries : List SnssEntry) : SnapState

/-- The two SNSS dialects (`SnssFileType`). -/
inductive SnssFileType where
  | Session : SnssFileType
  | Tab : SnssFileType
deriving DecidableEq

/-- The observable state of one profile directory, as the script reads
it.  A field is `none` when the file does not exist; `.error` models the
exception the corresponding read raises (invalid JSON for `Bookmarks`,
an sqlite3 error for `History`). `importOk` is whether the vendored
SNSS reader module can be imported. -/
structure Profile where
  bookmarks : Option (Except Unit Json)
  history : Option (Except Unit (List HRow))
  importOk : Bool
  snapshots : String → SnapState

/-- `(profile_path / f).exists()` for the files the pipeline touches. -/
def fileExists (p : Profile) (f : String) : Bool :=
  if f = "Bookmarks" then p.bookmarks.isSome
  else if f = "History" then p.history.isSome
  else
    match p.snapshots f with
    | .missing => false
    | _ => true

/-- `validate_profile`: returns `(ok, missing)` where `missing` lists the
expected marker files that do not exist and `ok` holds when it is
empty. -/
def validate_profile (p : Profile) : Bool × List String :=
  let missing := EXPECTED_FILES.filter (fun f => !fileExists p f)
  (missing.length == 0, missing)

/-! ### Bookmarks extraction (`extract_bookmarks`, `walk_bookmarks`) -/

/-- `extract_bookmarks`: `None` when the `Bookmarks` file does not
exist; the `json.load` exception propagates (uncaught) when the file is
not valid JSON; otherwise `data.get("roots", {})`.  (A non-dict
top-level document would raise `AttributeError` in Python; no claim
touches that case.) -/
def extract_bookmarks (bk : Option (Except Unit Json)) :
    Except Unit (Option Json) :=
  match bk with
  | none => .ok none
  | some (.error e) => .error e
  | some (.ok data) => .ok (some ((data.get "roots").getD (Json.obj [])))

/-- `node.get(key, default)` for the string-valued fields `name` and
`url` (in the Bookmarks format these are JSON strings when present). -/
def nodeStr (n : Json) (key dflt : String) : String :=
  match n.get key with
  | some (.str s) => s
  | _ => dflt

/-- The children of a bookmark node: `node.get("children", [])` (a
non-list value would raise on iteration in Python; no claim touches
that case). -/
def nodeChildren (n : Json) : List Json :=
  match n.get "children" with
  | some (.arr l) => l
  | _ => []

/-- `node.get("type") == t`: true exactly when the `type` field is the
string `t`. -/
def nodeTypeIs (n : Json) (t : String) : Bool :=
  match n.get "type" with
  | some (.str s) => s = t
  | _ => false

/-- The discriminator of a yielded bookmark record: the `"folder"` and
`"url"` tags of the source tuples. -/
inductive NodeKind where
  | folder : NodeKind
  | url : NodeKind
deriving DecidableEq

/-- One record yielded by `walk_bookmarks`:
`(depth, type, name, url)`. -/
structure WalkRec where
  depth : Nat
  kind : NodeKind
  name : String
  url : Option String
deriving DecidableEq

theorem sizeOf_lookupField {l : List (String × Json)} {k : String}
    {v : Json} (h : lookupField l k = some v) : sizeOf v < sizeOf l := by
  induction l with
  | nil => simp [lookupField] at h
  | cons hd tl ih =>
    obtain ⟨k', v'⟩ := hd
    simp only [lookupField] at h
    split at h
    · cases h
      simp
      omega
    · have := ih h
      simp
      omega

theorem sizeOf_get {n : Json} {k : String} {v : Json}
    (h : n.get k = some v) : sizeOf v < sizeOf n := by
  cases n <;> simp [Json.get] at h
  case obj fields =>
    have := sizeOf_lookupField h
    simp
    omega

theorem sizeOf_nodeChildren {n c : Json} (h : c ∈ nodeChildren n) :
    sizeOf c < sizeOf n := by
  unfold nodeChildren at h
  split at h
  case h_1 l heq =>
    have h1 : sizeOf c < sizeOf l := List.sizeOf_lt_of_mem h
    have h2 := sizeOf_get heq
    simp at h2
    omega
  case h_2 => simp at h

/-- `walk_bookmarks`: depth-first pre-order walk of the bookmark tree,
yielding `(depth, type, name, url)` records; folders yield themselves
then each child in source order at depth + 1; unrecognized `type`
values yield nothing. -/
def walk_bookmarks (node : Json) (depth : Nat) : List WalkRec :=
  if nodeTypeIs node "folder" then
    ⟨depth, .folder, nodeStr node "name" "Untitled", none⟩ ::
      (nodeChildren node).attach.flatMap
        (fun c => walk_bookmarks c.1 (depth + 1))
  else if nodeTypeIs node "url" then
    [⟨depth, .url, nodeStr node "name" "Untitled",
      some (nodeStr node "url" "")⟩]
  else []
termination_by sizeOf node
decreasing_by exact sizeOf_nodeChildren c.2

/-! ### Netscape bookmark export (`generate_importable_bookmarks`,
`_write_netscape_node`) -/

/-- `"    " * indent`, the line prefix (`prefix` in the source, bound
once per call). -/
def indentPfx : Nat → String
  | 0 => ""
  | n + 1 => "    " ++ indentPfx n

/-- `_write_netscape_node`: emit the Netscape `<DT>`/`<DL>` lines for
one node, recursing into folder children in source order with one more
indent unit. -/
def write_netscape_node (node : Json) (indent : Nat) : List String :=
  if nodeTypeIs node "folder" then
    (indentPfx indent ++ "<DT><H3>" ++
      esc (nodeStr node "name" "Untitled") ++ "</H3>") ::
    (indentPfx indent ++ "<DL><p>") ::
    ((nodeChildren node).attach.flatMap
        (fun c => write_netscape_node c.1 (indent + 1)) ++
      [indentPfx indent ++ "</DL><p>"])
  else if nodeTypeIs node "url" then
    [indentPfx indent ++ "<DT><A HREF=\"" ++ esc (nodeStr node "url" "") ++
      "\">" ++ esc (nodeStr node "name" "Untitled") ++ "</A>"]
  else []
termination_by sizeOf node
decreasing_by exact sizeOf_nodeChildren c.2

/-- Truthiness of the `bookmarks_roots` argument (`None` or the decoded
`roots` value). -/
def rootsTruthy : Option Json → Bool
  | some j => pyTruthy j
  | none => false

/-- The root items both renderers traverse: `bookmarks_roots.items()`
minus the internal names `"synced"` and `"sync_transaction_version"`. -/
def filteredRoots (j : Json) : List (String × Json) :=
  j.items.filter
    (fun kv => !(kv.1 = "synced" || kv.1 = "sync_transaction_version"))

/-- Body lines of the Netscape export: each retained root rendered at
indent 1 (empty when `bookmarks_roots` is falsy). -/
def netscapeBody (roots : Option Json) : List String :=
  if rootsTruthy roots then
    (filteredRoots ((roots).getD (Json.obj []))).flatMap
      (fun kv => write_netscape_node kv.2 1)
  else []

/-- `generate_importable_bookmarks`: the fixed header lines, the
rendered roots, and the closing `</DL><p>` (returned as the list of
lines the script joins and writes). -/
def generate_importable_bookmarks (roots : Option Json) : List String :=
  ["<!DOCTYPE NETSCAPE-Bookmark-file-1>",
   "<!-- This is an automatically generated file.",
   "     It will be read and overwritten.",
   "     DO NOT EDIT! -->",
   "<META HTTP-EQUIV=\"Content-Type\" CONTENT=\"text/html; charset=UTF-8\">",
   "<TITLE>Bookmarks</TITLE>",
   "<H1>Bookmarks</H1>",
   "<DL><p>"] ++
  netscapeBody roots ++
  ["</DL><p>"]

/-- The walk records the dashboard's bookmark loop iterates: the same
retained roots, each walked from depth 0. -/
def dashboardBookmarkRecords (j : Json) : List WalkRec :=
  (filteredRoots j).flatMap (fun kv => walk_bookmarks kv.2 0)

/-! ### History extraction (`extract_history`)

The SQLite engine is external: the query
`SELECT url, title, last_visit_time FROM urls ORDER BY last_visit_time
DESC LIMIT 5000` either raises (corrupt store / failed open) or returns
its rows; both outcomes are inputs here.  The timestamp conversion
`datetime(1601, 1, 1) + timedelta(microseconds=ts)` followed by
`strftime("%Y-%m-%d %H:%M:%S")` is embedded exactly below. -/

/-- Proleptic-Gregorian date from a day count since 0001-01-01
(day 0 = 0001-01-01), returning `(year, month, day)`.  Standard
era/day-of-era decomposition over 400-year cycles. -/
def civilFromDays (z0 : Nat) : Nat × Nat × Nat :=
  let z := z0 + 306
  let era := z / 146097
  let doe := z % 146097
  let yoe := (doe - doe / 1460 + doe / 36524 - doe / 146096) / 365
  let y := yoe + era * 400
  let doy := doe - (365 * yoe + yoe / 4 - yoe / 100)
  let mp := (5 * doy + 2) / 153
  let d := doy - (153 * mp + 2) / 5 + 1
  let m := if mp < 10 then mp + 3 else mp - 9
  (if m ≤ 2 then y + 1 else y, m, d)

/-- Left-pad a number with zeros to `w` digits. -/
def padNum (w n : Nat) : String :=
  let s := toString n
  String.join (List.replicate (w - s.length) "0") ++ s

/-- Days from 0001-01-01 to the Chrome epoch 1601-01-01: four complete
400-year Gregorian cycles. -/
def chromeEpochDays : Nat := 584388

/-- Microseconds in one day. -/
def usPerDay : Nat := 86400000000

/-- `datetime(1601, 1, 1) + timedelta(microseconds=ts)` rendered with
`strftime("%Y-%m-%d %H:%M:%S")`; `none` models the `OverflowError`
raised when the result leaves `datetime`'s year 1–9999 range (the
`timedelta` bound is strictly wider, so this check subsumes it).
`%Y` is rendered zero-padded to four digits; platform `strftime`s may
drop the padding for years below 1000, a region no claim touches. -/
def chromeTimeToStr (ts : Int) : Option String :=
  let total : Int := (chromeEpochDays : Int) * (usPerDay : Int) + ts
  if total < 0 || total > (3652059 : Int) * (usPerDay : Int) - 1 then none
  else
    let t := total.toNat
    let days := t / usPerDay
    let secs := t % usPerDay / 1000000
    let ymd := civilFromDays days
    some (padNum 4 ymd.1 ++ "-" ++ padNum 2 ymd.2.1 ++ "-" ++
          padNum 2 ymd.2.2 ++ " " ++ padNum 2 (secs / 3600) ++ ":" ++
          padNum 2 (secs % 3600 / 60) ++ ":" ++ padNum 2 (secs % 60))

/-- The per-row normalization of the fetch loop:
`(url, title or "", time_str)` where `time_str` falls back to
`"Unknown"` when the conversion raises. -/
def historyRow (r : HRow) : String × String × String :=
  (r.1, r.2.1.getD "", (chromeTimeToStr r.2.2).getD "Unknown")

/-- File-system events of the history read, for the temp-copy
lifecycle. -/
inductive FsEv where
  | copy (src dst : String) : FsEv
  | connect (path : String) : FsEv
  | unlink (path : String) : FsEv
deriving DecidableEq

/-- The fixed temporary path the history copy uses. -/
def tmpHistoryPath : String := "/tmp/chrome_recovery_history_copy"

/-- `extract_history`: `None` when the `History` file does not exist;
otherwise copy it to the fixed temp path, connect to the copy and run
the query inside `try`, with the `finally` block unlinking the copy on
both the success path and the raising path (on which the sqlite
exception then propagates, uncaught).  Returns the event trace paired
with the outcome. -/
def extract_history (hist : Option (Except Unit (List HRow))) :
    List FsEv × Except Unit (Option (List (String × String × String))) :=
  match hist with
  | none => ([], .ok none)
  | some (.error e) =>
    ([.copy "History" tmpHistoryPath, .connect tmpHistoryPath,
      .unlink tmpHistoryPath], .error e)
  | some (.ok rows) =>
    ([.copy "History" tmpHistoryPath, .connect tmpHistoryPath,
      .unlink tmpHistoryPath], .ok (some (rows.map historyRow)))

/-- Whether the temp copy exists after replaying a trace (initially it
does not). -/
def tmpAliveAfter (tr : List FsEv) : Bool :=
  tr.foldl
    (fun alive ev =>
      match ev with
      | .copy _ dst => if dst = tmpHistoryPath then true else alive
      | .unlink p => if p = tmpHistoryPath then false else alive
      | .connect _ => alive)
    false

/-! ### Tabs extraction (`extract_tabs`) -/

/-- The candidate snapshot files in the priority order the extraction
loop tries them, each with its SNSS dialect. -/
def session_files : List (String × SnssFileType) :=
  [("Current Session", .Session), ("Last Session", .Session),
   ("Current Tabs", .Tab), ("Last Tabs", .Tab)]

/-- Python's `s.startswith(pre)`: character-level prefix test. -/
def pyStartsWith (s pre : String) : Bool :=
  pre.data.isPrefixOf s.data

/-- One iteration of the inner entry loop over `(tabs, seen_urls)`:
a `NavigationEntry` whose url is non-empty, unseen, and not
`chrome://`-internal is appended and its url marked seen; everything
else leaves the state unchanged. -/
def stepEntry (st : List (String × String) × List String) (e : SnssEntry) :
    List (String × String) × List String :=
  match e with
  | .nav url title =>
    if url ≠ "" && !st.2.contains url && !pyStartsWith url "chrome://" then
      (st.1 ++ [(url, title.getD "")], url :: st.2)
    else st
  | .other => st

/-- One iteration of the outer candidate loop: a missing file is
skipped (`continue`), a decoder exception is logged and skipped,
a decoded file feeds its entries through `stepEntry`. -/
def processFile (st : List (String × String) × List String)
    (c : SnapState) : List (String × String) × List String :=
  match c with
  | .ok entries => entries.foldl stepEntry st
  | .missing => st
  | .decodeError => st

/-- The tab list collected across all candidates in priority order,
starting from empty `tabs` and `seen_urls`. -/
def collectAll (snaps : String → SnapState) : List (String × String) :=
  (session_files.foldl (fun st nf => processFile st (snaps nf.1))
    ([], [])).1

/-- `extract_tabs`: `None` when the SNSS reader cannot be imported;
otherwise run the collection loop and return `tabs if tabs else None`
— an empty collection maps to `None`. -/
def extract_tabs (importOk : Bool) (snaps : String → SnapState) :
    Option (List (String × String)) :=
  if !importOk then none
  else
    let tabs := collectAll snaps
    if tabs.isEmpty then none else some tabs

/-- A navigation record qualifies when its url is non-empty and not
browser-internal. -/
def qualifies (r : String × String) : Bool :=
  r.1 ≠ "" && !pyStartsWith r.1 "chrome://"

/-- The `(url, title or "")` pairs of the navigation entries of one
decoded candidate, in stream order. -/
def navPairs (entries : List SnssEntry) : List (String × String) :=
  entries.filterMap
    (fun e =>
      match e with
      | .nav u t => some (u, t.getD "")
      | .other => none)

/-- The records one candidate contributes: none unless it exists and
decodes. -/
def candidateRecords (snaps : String → SnapState)
    (nf : String × SnssFileType) : List (String × String) :=
  match snaps nf.1 with
  | .ok entries => navPairs entries
  | _ => []

/-- All navigation records of the run, concatenated in candidate
priority order. -/
def flatRecords (snaps : String → SnapState) : List (String × String) :=
  session_files.flatMap (candidateRecords snaps)

/-- Specification-side deduplication: keep the first record of each
url, delete every later record with the same url. -/
def dedupKeepFirst : List (String × String) → List (String × String)
  | [] => []
  | r :: rs => r :: dedupKeepFirst (rs.filter (fun x => x.1 ≠ r.1))
termination_by l => l.length
decreasing_by
  simp only [List.length_cons]
  exact Nat.lt_succ_of_le (List.length_filter_le _ _)

/-- The records a candidate in one decode state contributes to the
flat stream. -/
def recordsOfState : SnapState → List (String × String)
  | .ok entries => navPairs entries
  | .missing => []
  | .decodeError => []

/-- `stepEntry` restricted to the navigation pairs it acts on. -/
def stepRec (st : List (String × String) × List String)
    (r : String × String) : List (String × String) × List String :=
  if r.1 ≠ "" && !st.2.contains r.1 && !pyStartsWith r.1 "chrome://" then
    (st.1 ++ [r], r.1 :: st.2)
  else st

/-! ### Traversal-record extraction for the exporter (claim C7) -/

/-- Strip the leading run of spaces from a line (the indentation the
exporter puts in front of every tag). -/
def dropLeadingSpaces (s : String) : String :=
  ⟨s.data.dropWhile (fun c => c = ' ')⟩

/-- Whether a (de-indented) line is a `<DT>` entry line — the lines
carrying a folder heading or a link, as opposed to the `<DL>`/`</DL>`
bracket lines. -/
def isDTLine (s : String) : Bool :=
  ['<', 'D', 'T', '>'].isPrefixOf s.data

/-- The `<DT>` payloads of a rendered line list, in order, with the
indentation stripped. -/
def dtPayloads (lines : List String) : List String :=
  (lines.map dropLeadingSpaces).filter isDTLine

/-- The `<DT>` payload a walk record corresponds to. -/
def payloadOf (r : WalkRec) : String :=
  match r.kind with
  | .folder => "<DT><H3>" ++ esc r.name ++ "</H3>"
  | .url => "<DT><A HREF=\"" ++ esc (r.url.getD "") ++ "\">" ++
      esc r.name ++ "</A>"

/-! ### HTML dashboard (`generate_dashboard`) -/

/-- The fixed document head the dashboard starts with, up to and
including the opening `<nav>` tag (the first element of `parts`). -/
def dashboardHeader : String :=
"<!DOCTYPE html>
<html lang=\"en\">
<head>
<meta charset=\"UTF-8\">
<meta name=\"viewport\" content=\"width=device-width, initial-scale=1.0\">
<title>Chrome Recovery</title>
<style>
  * \x7b box-sizing: border-box; margin: 0; padding: 0; \x7d
  body \x7b
    font-family: -apple-system, BlinkMacSystemFont, \"Segoe UI\", Roboto, sans-serif;
    max-width: 900px; margin: 40px auto; padding: 0 20px;
    color: #333; background: #fafafa;
  \x7d
  h1 \x7b font-size: 28px; margin-bottom: 8px; \x7d
  .subtitle \x7b color: #888; margin-bottom: 32px; \x7d
  h2 \x7b font-size: 20px; margin: 32px 0 16px; padding-bottom: 8px; border-bottom: 2px solid #ddd; \x7d
  .tab-list, .history-list \x7b list-style: none; \x7d
  .tab-list li, .history-list li \x7b
    padding: 8px 0; border-bottom: 1px solid #eee;
  \x7d
  .tab-list a, .history-list a, .bookmark-link \x7b
    color: #1a73e8; text-decoration: none;
  \x7d
  .tab-list a:hover, .history-list a:hover, .bookmark-link:hover \x7b
    text-decoration: underline;
  \x7d
  .url-display \x7b color: #888; font-size: 12px; display: block; overflow: hidden; text-overflow: ellipsis; white-space: nowrap; \x7d
  .timestamp \x7b color: #888; font-size: 12px; margin-left: 8px; \x7d
  .folder \x7b font-weight: 600; margin-top: 12px; padding: 4px 0; \x7d
  .bookmark-item \x7b padding: 3px 0; \x7d
  .indent-1 \x7b padding-left: 20px; \x7d
  .indent-2 \x7b padding-left: 40px; \x7d
  .indent-3 \x7b padding-left: 60px; \x7d
  .indent-4 \x7b padding-left: 80px; \x7d
  .indent-5 \x7b padding-left: 100px; \x7d
  .section-count \x7b color: #888; font-weight: normal; font-size: 14px; \x7d
  .empty-note \x7b color: #999; font-style: italic; padding: 12px 0; \x7d
  nav \x7b margin-bottom: 24px; \x7d
  nav a \x7b margin-right: 16px; color: #1a73e8; text-decoration: none; font-weight: 500; \x7d
  nav a:hover \x7b text-decoration: underline; \x7d
</style>
</head>
<body>
<h1>Chrome Recovery</h1>
<p class=\"subtitle\">Recovered from Chrome profile data</p>
<nav>"

/-- The navigation anchors: tabs and history anchors only when the
feature value is not `None`; the bookmarks anchor unconditionally. -/
def navLinks (tabs : Option (List (String × String)))
    (history : Option (List (String × String × String))) : List String :=
  (if tabs.isSome then ["<a href=\"#tabs\">Open Tabs</a>"] else []) ++
  ["<a href=\"#bookmarks\">Bookmarks</a>"] ++
  (if history.isSome then ["<a href=\"#history\">History</a>"] else [])

/-- One `<li>` of the open-tabs list: the anchor labelled with the
escaped title (or the escaped url when the title is empty) plus the
escaped url on a secondary line. -/
def renderTabRow (t : String × String) : String :=
  "<li><a href=\"" ++ esc t.1 ++ "\">" ++
    (if t.2 ≠ "" then esc t.2 else esc t.1) ++ "</a>" ++
  "<span class=\"url-display\">" ++ esc t.1 ++ "</span></li>"

/-- The tabs section: counted list when present and non-empty, a
"none found" note when present but empty, a "could not recover" note
when absent. -/
def tabsSection (tabs : Option (List (String × String))) : List String :=
  match tabs with
  | some ts =>
    ("<h2 id=\"tabs\">Open Tabs <span class=\"section-count\">(" ++
      toString ts.length ++ ")</span></h2>") ::
    (if !ts.isEmpty then
      ["<ul class=\"tab-list\">"] ++ ts.map renderTabRow ++ ["</ul>"]
    else ["<p class=\"empty-note\">No open tabs found.</p>"])
  | none =>
    ["<h2 id=\"tabs\">Open Tabs</h2>",
     "<p class=\"empty-note\">Could not recover open tabs from session files.</p>"]

/-- One bookmark line of the dashboard: a folder heading or a link,
indented by `min depth 5`. -/
def renderBookmarkRec (r : WalkRec) : String :=
  match r.kind with
  | .folder =>
    "<div class=\"folder indent-" ++ toString (min r.depth 5) ++ "\">" ++
      esc r.name ++ "</div>"
  | .url =>
    "<div class=\"bookmark-item indent-" ++ toString (min r.depth 5) ++
      "\">" ++ "<a class=\"bookmark-link\" href=\"" ++
      esc (r.url.getD "") ++ "\">" ++ esc r.name ++ "</a></div>"

/-- The bookmarks section: its heading is unconditional; a truthy
`bookmarks_roots` renders the link count then every walked record;
`None` and empty alike render "No bookmarks found." -/
def bookmarksSection (roots : Option Json) : List String :=
  "<h2 id=\"bookmarks\">Bookmarks</h2>" ::
  (if rootsTruthy roots then
    let records := dashboardBookmarkRecords ((roots).getD (Json.obj []))
    ("<p class=\"section-count\">" ++
      toString ((records.filter (fun r => r.kind = NodeKind.url)).length) ++
      " bookmarks</p>") ::
    records.map renderBookmarkRec
  else ["<p class=\"empty-note\">No bookmarks found.</p>"])

/-- One `<li>` of the history list: escaped anchor, escaped timestamp,
escaped url line. -/
def renderHistoryRow (h : String × String × String) : String :=
  "<li><a href=\"" ++ esc h.1 ++ "\">" ++
    (if h.2.1 ≠ "" then esc h.2.1 else esc h.1) ++ "</a>" ++
  "<span class=\"timestamp\">" ++ esc h.2.2 ++ "</span>" ++
  "<span class=\"url-display\">" ++ esc h.1 ++ "</span></li>"

/-- The history section, same tri-state shape as the tabs section. -/
def historySection (history : Option (List (String × String × String))) :
    List String :=
  match history with
  | some hs =>
    ("<h2 id=\"history\">Browsing History <span class=\"section-count\">(" ++
      toString hs.length ++ ")</span></h2>") ::
    (if !hs.isEmpty then
      ["<ul class=\"history-list\">"] ++ hs.map renderHistoryRow ++ ["</ul>"]
    else ["<p class=\"empty-note\">No history entries found.</p>"])
  | none =>
    ["<h2 id=\"history\">Browsing History</h2>",
     "<p class=\"empty-note\">Could not recover browsing history.</p>"]

/-- `generate_dashboard`: the full `parts` list the script joins with
newlines and writes. -/
def generate_dashboard (tabs : Option (List (String × String)))
    (roots : Option Json)
    (history : Option (List (String × String × String))) : List String :=
  dashboardHeader ::
  (navLinks tabs history ++ ["</nav>"] ++ tabsSection tabs ++
   bookmarksSection roots ++ historySection history ++ ["</body></html>"])

/-! ### The run (`main`) -/

/-- The observable outcome of one run: rejected by validation (with the
missing markers, nothing extracted or written), aborted by an uncaught
extractor exception, or completed with the dashboard parts and the
Netscape export when `bookmarks_roots` was truthy (`None` when the
exporter was not invoked). -/
inductive RunResult where
  | rejected (missing : List String) : RunResult
  | crashed : RunResult
  | completed (dashboard : List String)
      (exported : Option (List String)) : RunResult

/-- `main` after the folder pick: validate (reject listing the missing
markers on failure), run the three extractors — an uncaught exception
in `extract_bookmarks` (bad JSON) or `extract_history` (sqlite error)
aborts the run — then write the dashboard, and the Netscape export only
when `bookmarks_roots` is truthy. -/
def mainRun (p : Profile) : RunResult :=
  let v := validate_profile p
  if !v.1 then .rejected v.2
  else
    match extract_bookmarks p.bookmarks with
    | .error _ => .crashed
    | .ok bookmarks_roots =>
      match (extract_history p.history).2 with
      | .error _ => .crashed
      | .ok history =>
        let tabs := extract_tabs p.importOk p.snapshots
        .completed (generate_dashboard tabs bookmarks_roots history)
          (if rootsTruthy bookmarks_roots then
            some (generate_importable_bookmarks bookmarks_roots)
          else none)

/-! ## Claim theorems -/

/-- C9: profile validation succeeds iff both marker files `Bookmarks`
and `History` exist, its missing list is exactly the missing marker
names, and a failed validation rejects the whole run with that list
(nothing extracted, no output written). -/
theorem validation_markers_gate_run (p : Profile) :
    ((validate_profile p).1 = true ↔
      fileExists p "Bookmarks" = true ∧ fileExists p "History" = true) ∧
    (validate_profile p).2 =
      (if fileExists p "Bookmarks" then [] else ["Bookmarks"]) ++
      (if fileExists p "History" then [] else ["History"]) ∧
    ((validate_profile p).1 = false →
      mainRun p = .rejected (validate_profile p).2) := by
  cases hb : fileExists p "Bookmarks" <;> cases hh : fileExists p "History" <;>
    simp [validate_profile, mainRun, EXPECTED_FILES, hb, hh]

/-- Witness for C9: a profile with neither marker is rejected naming
both. -/
theorem validation_markers_gate_run_witness :
    mainRun ⟨none, none, true, fun _ => .missing⟩ =
      .rejected ["Bookmarks", "History"] := by
  have h :=
    (validation_markers_gate_run ⟨none, none, true, fun _ => .missing⟩).2.2
  exact h rfl

/-- C2 counterexample: with a `Bookmarks` file that exists but is not
valid JSON (and a perfectly healthy `History`), the run aborts with an
uncaught exception — it does not mark the feature absent and does not
produce the dashboard. -/
theorem bad_json_aborts_run :
    mainRun ⟨some (.error ()), some (.ok []), true, fun _ => .missing⟩ =
      .crashed := rfl

/-- C2 as amended: when validation passes, a JSON parse error in the
`Bookmarks` file — or an sqlite error on the copied `History` store
after `Bookmarks` decoded — propagates uncaught and aborts the whole
run; no dashboard is produced and the feature is not marked absent. -/
theorem extractor_errors_abort_run (p : Profile) :
    ((validate_profile p).1 = true → p.bookmarks = some (.error ()) →
      mainRun p = .crashed) ∧
    ((validate_profile p).1 = true → (∃ j, p.bookmarks = some (.ok j)) →
      p.history = some (.error ()) → mainRun p = .crashed) := by
  constructor
  · intro hv hb
    simp [mainRun, hv, hb, extract_bookmarks]
  · intro hv hb hh
    obtain ⟨j, hj⟩ := hb
    simp [mainRun, hv, hj, hh, extract_bookmarks, extract_history]

/-- Witness for C2 (amended): both abort paths at concrete profiles. -/
theorem extractor_errors_abort_run_witness :
    mainRun ⟨some (.error ()), some (.ok []), true, fun _ => .missing⟩ =
        .crashed ∧
    mainRun ⟨some (.ok (Json.obj [])), some (.error ()), true,
        fun _ => .missing⟩ = .crashed := by
  constructor
  · exact (extractor_errors_abort_run _).1 rfl rfl
  · exact (extractor_errors_abort_run _).2 rfl ⟨Json.obj [], rfl⟩ rfl

/-- C10: a `Bookmarks` file that parses but has no top-level `roots`
key yields the empty mapping (not absence); the run completes, the
dashboard shows the "No bookmarks found." notice, and the Netscape
exporter is not invoked. -/
theorem no_roots_key_renders_empty (p : Profile) (j : Json)
    (rows : List HRow) (hv : (validate_profile p).1 = true)
    (hb : p.bookmarks = some (.ok j)) (hr : j.get "roots" = none)
    (hh : p.history = some (.ok rows)) :
    extract_bookmarks p.bookmarks = .ok (some (Json.obj [])) ∧
    mainRun p = .completed
      (generate_dashboard (extract_tabs p.importOk p.snapshots)
        (some (Json.obj [])) (some (rows.map historyRow))) none ∧
    "<p class=\"empty-note\">No bookmarks found.</p>" ∈
      generate_dashboard (extract_tabs p.importOk p.snapshots)
        (some (Json.obj [])) (some (rows.map historyRow)) := by
  refine ⟨?_, ?_, ?_⟩
  · simp [hb, extract_bookmarks, hr]
  · simp [mainRun, hv, hb, hh, extract_bookmarks, extract_history, hr,
      rootsTruthy, pyTruthy]
  · simp [generate_dashboard, bookmarksSection, rootsTruthy, pyTruthy]

/-- Witness for C10 at a concrete rootless document. -/
theorem no_roots_key_renders_empty_witness :
    extract_bookmarks (some (.ok (Json.obj [("x", Json.str "y")]))) =
      .ok (some (Json.obj [])) := by
  exact (no_roots_key_renders_empty
    ⟨some (.ok (Json.obj [("x", Json.str "y")])), some (.ok []), true,
      fun _ => .missing⟩
    (Json.obj [("x", Json.str "y")]) [] rfl rfl rfl rfl).1

/-- C1 counterexample: one candidate snapshot file decodes successfully
with zero qualifying records, yet `extract_tabs` reports `None`
(absent), not the empty sequence the claim requires. -/
theorem zero_records_reported_absent :
    extract_tabs true
      (fun n => if n = "Current Session" then SnapState.ok [] else .missing)
      = none ∧
    (fun n => if n = "Current Session" then SnapState.ok [] else
      SnapState.missing) "Current Session" = SnapState.ok [] :=
  ⟨rfl, rfl⟩

/-- C1 as amended: when the qualifying records collected across all
candidates number zero, the tabs feature is reported absent (`None`) —
indistinguishable from no candidate decoding — and an empty tab
sequence is never reported (`return tabs if tabs else None`). -/
theorem tabs_never_present_but_empty (importOk : Bool)
    (snaps : String → SnapState) :
    (collectAll snaps = [] → extract_tabs importOk snaps = none) ∧
    ∀ l, extract_tabs importOk snaps = some l → l ≠ [] := by
  constructor
  · intro h
    unfold extract_tabs
    cases importOk <;> simp [h]
  · intro l hl
    unfold extract_tabs at hl
    cases importOk <;> simp at hl
    exact fun h => hl.1 (hl.2.trans h)

/-- Witness for C1 (amended): a run that decodes one empty candidate is
reported absent. -/
theorem tabs_never_present_but_empty_witness :
    extract_tabs true
      (fun n => if n = "Current Tabs" then SnapState.ok [.other] else
        .missing) = none :=
  (tabs_never_present_but_empty true _).1 rfl

/-- C8: when the `History` file exists, the read copies it to the temp
path before connecting, connects only to that copy, and the copy is
unlinked on every exit path — the trace ends with the copy gone even
when the open/query raises, in which case the error still propagates. -/
theorem history_reads_scoped_copy
    (hist : Option (Except Unit (List HRow))) (h : hist.isSome = true) :
    tmpAliveAfter (extract_history hist).1 = false ∧
    (extract_history hist).1.head? =
      some (.copy "History" tmpHistoryPath) ∧
    (∀ pth, FsEv.connect pth ∈ (extract_history hist).1 →
      pth = tmpHistoryPath) ∧
    FsEv.unlink tmpHistoryPath ∈ (extract_history hist).1 ∧
    (∀ e, hist = some (.error e) →
      (extract_history hist).2 = .error e) := by
  match hist with
  | none => simp at h
  | some (.error e) =>
    refine ⟨rfl, rfl, ?_, by simp [extract_history], ?_⟩
    · intro pth hm
      simp [extract_history] at hm
      exact hm
    · intro e' he
      cases he
      rfl
  | some (.ok rows) =>
    refine ⟨rfl, rfl, ?_, by simp [extract_history], ?_⟩
    · intro pth hm
      simp [extract_history] at hm
      exact hm
    · intro e' he
      cases he

/-- Witness for C8: the failing-query path at a concrete profile still
removes the copy. -/
theorem history_reads_scoped_copy_witness :
    tmpAliveAfter (extract_history (some (.error ()))).1 = false :=
  (history_reads_scoped_copy (some (.error ())) rfl).1

/-- C5: each history row is rendered as
`(url, title or "", time)` where `time` is the stored integer read as
microseconds since 1601-01-01T00:00:00 and formatted, falling back to
the literal `"Unknown"` when the conversion raises; a stored 0 renders
exactly `"1601-01-01 00:00:00"`, an absurd timestamp renders
`"Unknown"`, and a null title becomes the empty string. -/
theorem history_rows_rendered :
    (∀ rows, (extract_history (some (.ok rows))).2 =
      .ok (some (rows.map historyRow))) ∧
    (∀ url (title : Option String) (ts : Int),
      historyRow (url, title, ts) =
        (url, title.getD "", (chromeTimeToStr ts).getD "Unknown")) ∧
    chromeTimeToStr 0 = some "1601-01-01 00:00:00" ∧
    historyRow ("u", none, 0) = ("u", "", "1601-01-01 00:00:00") ∧
    chromeTimeToStr (2 ^ 63) = none ∧
    historyRow ("u", none, 2 ^ 63) = ("u", "", "Unknown") ∧
    (∀ url ts, (historyRow (url, none, ts)).2.1 = "") := by
  refine ⟨fun rows => rfl, fun url title ts => rfl, by decide, by decide,
    by decide, by decide, fun url ts => rfl⟩

/-- C3 counterexample: in a run where every feature is absent, the
dashboard still emits the bookmarks navigation anchor, and the
bookmarks section shows "No bookmarks found." (the present-but-empty
notice), not a "could not be recovered" notice — so an anchor is not
emitted only-if-present, and an absent feature's section does not
always show the recovery notice. -/
theorem bookmarks_anchor_unconditional :
    "<a href=\"#bookmarks\">Bookmarks</a>" ∈
      generate_dashboard none none none ∧
    "<p class=\"empty-note\">No bookmarks found.</p>" ∈
      generate_dashboard none none none := by
  constructor <;>
    simp [generate_dashboard, navLinks, tabsSection, bookmarksSection,
      historySection, rootsTruthy]

/-- C3 as amended: the tabs and history anchors are emitted iff the
respective feature is present, and when absent those two sections show
their "could not recover" notices; the bookmarks anchor is emitted
unconditionally, and an absent bookmarks feature renders the same
"No bookmarks found." notice as an empty one. -/
theorem nav_anchor_iff_feature_present
    (tabs : Option (List (String × String))) (roots : Option Json)
    (history : Option (List (String × String × String))) :
    generate_dashboard tabs roots history =
      dashboardHeader ::
        (navLinks tabs history ++ ["</nav>"] ++ tabsSection tabs ++
         bookmarksSection roots ++ historySection history ++
         ["</body></html>"]) ∧
    ("<a href=\"#tabs\">Open Tabs</a>" ∈ navLinks tabs history ↔
      tabs.isSome = true) ∧
    ("<a href=\"#history\">History</a>" ∈ navLinks tabs history ↔
      history.isSome = true) ∧
    "<a href=\"#bookmarks\">Bookmarks</a>" ∈ navLinks tabs history ∧
    (tabs = none →
      tabsSection tabs = ["<h2 id=\"tabs\">Open Tabs</h2>",
        "<p class=\"empty-note\">Could not recover open tabs from session files.</p>"]) ∧
    (history = none →
      historySection history = ["<h2 id=\"history\">Browsing History</h2>",
        "<p class=\"empty-note\">Could not recover browsing history.</p>"]) ∧
    (roots = none →
      bookmarksSection roots = ["<h2 id=\"bookmarks\">Bookmarks</h2>",
        "<p class=\"empty-note\">No bookmarks found.</p>"]) := by
  refine ⟨rfl, ?_, ?_, ?_, ?_, ?_, ?_⟩
  · cases tabs <;> simp [navLinks]
  · cases history <;> simp [navLinks]
  · cases tabs <;> cases history <;> simp [navLinks]
  · rintro rfl
    rfl
  · rintro rfl
    rfl
  · rintro rfl
    rfl

/-- Witness for C3 (amended) with every feature absent. -/
theorem nav_anchor_iff_feature_present_witness :
    tabsSection none = ["<h2 id=\"tabs\">Open Tabs</h2>",
      "<p class=\"empty-note\">Could not recover open tabs from session files.</p>"] ∧
    bookmarksSection none = ["<h2 id=\"bookmarks\">Bookmarks</h2>",
      "<p class=\"empty-note\">No bookmarks found.</p>"] :=
  ⟨(nav_anchor_iff_feature_present none none none).2.2.2.2.1 rfl,
   (nav_anchor_iff_feature_present none none none).2.2.2.2.2.2 rfl⟩

/-! ### Escaping safety (claim C6) -/

theorem escapedForm_escChar_append (c : Char) (l : List Char)
    (h : escapedForm l = true) : escapedForm (escChar c ++ l) = true := by
  by_cases h1 : c = '&'
  · subst h1
    show escapedForm (('&' :: ['a', 'm', 'p', ';']) ++ l) = true
    simp [escapedForm, isRawSpecial, quoteChar, h, List.isPrefixOf]
  · by_cases h2 : c = '<'
    · subst h2
      show escapedForm (('&' :: ['l', 't', ';']) ++ l) = true
      simp [escapedForm, isRawSpecial, quoteChar, h, List.isPrefixOf]
    · by_cases h3 : c = '>'
      · subst h3
        show escapedForm (('&' :: ['g', 't', ';']) ++ l) = true
        simp [escapedForm, isRawSpecial, quoteChar, h, List.isPrefixOf]
      · by_cases h4 : c = '"'
        · subst h4
          show escapedForm (('&' :: ['q', 'u', 'o', 't', ';']) ++ l) = true
          simp [escapedForm, isRawSpecial, quoteChar, h, List.isPrefixOf]
        · by_cases h5 : c = quoteChar
          · subst h5
            show escapedForm (('&' :: ['#', 'x', '2', '7', ';']) ++ l) = true
            simp [escapedForm, isRawSpecial, quoteChar, h, List.isPrefixOf]
          · have : escChar c = [c] := by
              simp [escChar, h1, h2, h3, h4, h5]
            rw [this]
            simpa [escapedForm, isRawSpecial, h1, h2, h3, h4, h5] using h

theorem attach_flatMap_write (cs : List Json) (i : Nat) :
    cs.attach.flatMap (fun c => write_netscape_node c.1 i) =
      cs.flatMap (fun c => write_netscape_node c i) := by
  rw [List.flatMap, List.flatMap]
  exact congrArg List.flatten
    (List.attach_map_coe cs (fun c => write_netscape_node c i))

theorem esc_escapedForm (s : String) : escapedForm (esc s).data = true := by
  show escapedForm (s.data.flatMap escChar) = true
  induction s.data with
  | nil => rfl
  | cons c cs ih =>
    rw [List.flatMap_cons]
    exact escapedForm_escChar_append c _ ih

/-- C6: escaped form is universal — for every string, `esc` output
contains no raw `< > " '` and every `&` in it starts one of the five
escape entities; and each renderer of both documents — tab and history
rows, the dashboard's bookmark folder headings and links, and the
Netscape exporter's folder headings and link anchors — interpolates
every user-supplied field (url, title, bookmark/folder name, formatted
timestamp) exclusively through `esc`, never raw. -/
theorem rendered_entries_escaped :
    (∀ s : String, escapedForm (esc s).data = true) ∧
    (∀ t : String × String, renderTabRow t =
      "<li><a href=\"" ++ esc t.1 ++ "\">" ++
        (if t.2 ≠ "" then esc t.2 else esc t.1) ++ "</a>" ++
        "<span class=\"url-display\">" ++ esc t.1 ++ "</span></li>") ∧
    (∀ h : String × String × String, renderHistoryRow h =
      "<li><a href=\"" ++ esc h.1 ++ "\">" ++
        (if h.2.1 ≠ "" then esc h.2.1 else esc h.1) ++ "</a>" ++
        "<span class=\"timestamp\">" ++ esc h.2.2 ++ "</span>" ++
        "<span class=\"url-display\">" ++ esc h.1 ++ "</span></li>") ∧
    (∀ r : WalkRec, r.kind = .folder → renderBookmarkRec r =
      "<div class=\"folder indent-" ++ toString (min r.depth 5) ++
        "\">" ++ esc r.name ++ "</div>") ∧
    (∀ r : WalkRec, r.kind = .url → renderBookmarkRec r =
      "<div class=\"bookmark-item indent-" ++ toString (min r.depth 5) ++
        "\">" ++ "<a class=\"bookmark-link\" href=\"" ++
        esc (r.url.getD "") ++ "\">" ++ esc r.name ++ "</a></div>") ∧
    (∀ n : Json, ∀ i, nodeTypeIs n "folder" = true →
      write_netscape_node n i =
        (indentPfx i ++ "<DT><H3>" ++
          esc (nodeStr n "name" "Untitled") ++ "</H3>") ::
        (indentPfx i ++ "<DL><p>") ::
        ((nodeChildren n).flatMap
            (fun c => write_netscape_node c (i + 1)) ++
          [indentPfx i ++ "</DL><p>"])) ∧
    (∀ n : Json, ∀ i, nodeTypeIs n "url" = true →
      write_netscape_node n i =
        [indentPfx i ++ "<DT><A HREF=\"" ++ esc (nodeStr n "url" "") ++
          "\">" ++ esc (nodeStr n "name" "Untitled") ++ "</A>"]) := by
  refine ⟨esc_escapedForm, fun t => rfl, fun h => rfl, ?_, ?_, ?_, ?_⟩
  · intro r h
    cases hk : r.kind
    · simp [renderBookmarkRec, hk]
    · rw [hk] at h
      simp at h
  · intro r h
    cases hk : r.kind
    · rw [hk] at h
      simp at h
    · simp [renderBookmarkRec, hk]
  · intro n i h
    rw [write_netscape_node]
    simp only [h, if_true]
    rw [attach_flatMap_write]
  · intro n i h
    rw [write_netscape_node]
    have hnf : nodeTypeIs n "folder" = false := by
      unfold nodeTypeIs at h ⊢
      split at h <;> simp_all
    simp [hnf, h]

/-- Witness for C6: the folder and url renderers of both documents
evaluated at a concrete folder heading and a concrete bookmark link. -/
theorem rendered_entries_escaped_witness :
    renderBookmarkRec ⟨1, .folder, "Bar", none⟩ =
      "<div class=\"folder indent-" ++ toString (min 1 5) ++ "\">" ++
        esc "Bar" ++ "</div>" ∧
    renderBookmarkRec ⟨0, .url, "Ex", some "https://example.com"⟩ =
      "<div class=\"bookmark-item indent-" ++ toString (min 0 5) ++
        "\">" ++ "<a class=\"bookmark-link\" href=\"" ++
        esc ((some "https://example.com").getD "") ++ "\">" ++ esc "Ex" ++
        "</a></div>" ∧
    write_netscape_node
      (Json.obj [("type", Json.str "folder"), ("name", Json.str "Bar")])
      1 =
      (indentPfx 1 ++ "<DT><H3>" ++
        esc (nodeStr
          (Json.obj [("type", Json.str "folder"),
            ("name", Json.str "Bar")]) "name" "Untitled") ++ "</H3>") ::
      (indentPfx 1 ++ "<DL><p>") ::
      ((nodeChildren
          (Json.obj [("type", Json.str "folder"),
            ("name", Json.str "Bar")])).flatMap
          (fun c => write_netscape_node c (1 + 1)) ++
        [indentPfx 1 ++ "</DL><p>"]) ∧
    write_netscape_node
      (Json.obj [("type", Json.str "url"), ("name", Json.str "Ex"),
        ("url", Json.str "https://example.com")]) 1 =
      [indentPfx 1 ++ "<DT><A HREF=\"" ++
        esc (nodeStr
          (Json.obj [("type", Json.str "url"), ("name", Json.str "Ex"),
            ("url", Json.str "https://example.com")]) "url" "") ++
        "\">" ++
        esc (nodeStr
          (Json.obj [("type", Json.str "url"), ("name", Json.str "Ex"),
            ("url", Json.str "https://example.com")]) "name" "Untitled")
        ++ "</A>"] :=
  ⟨rendered_entries_escaped.2.2.2.1 ⟨1, .folder, "Bar", none⟩ rfl,
   rendered_entries_escaped.2.2.2.2.1
     ⟨0, .url, "Ex", some "https://example.com"⟩ rfl,
   rendered_entries_escaped.2.2.2.2.2.1
     (Json.obj [("type", Json.str "folder"), ("name", Json.str "Bar")])
     1 rfl,
   rendered_entries_escaped.2.2.2.2.2.2
     (Json.obj [("type", Json.str "url"), ("name", Json.str "Ex"),
       ("url", Json.str "https://example.com")]) 1 rfl⟩

/-! ### Tab deduplication (claim C4) -/

theorem foldl_stepEntry_navPairs (entries : List SnssEntry)
    (st : List (String × String) × List String) :
    entries.foldl stepEntry st = (navPairs entries).foldl stepRec st := by
  induction entries generalizing st with
  | nil => rfl
  | cons e es ih =>
    cases e with
    | nav u t =>
      show es.foldl stepEntry (stepEntry st (.nav u t)) = _
      rw [ih]
      rfl
    | other => exact ih st

theorem processFile_foldRec (st : List (String × String) × List String)
    (c : SnapState) :
    processFile st c = (recordsOfState c).foldl stepRec st := by
  cases c with
  | ok entries => exact foldl_stepEntry_navPairs entries st
  | missing => rfl
  | decodeError => rfl

theorem dedupKeepFirst_cons (r : String × String)
    (l : List (String × String)) :
    dedupKeepFirst (r :: l) =
      r :: dedupKeepFirst (l.filter (fun x => x.1 ≠ r.1)) := by
  rw [dedupKeepFirst]

theorem foldl_stepRec_dedup (rs : List (String × String)) :
    ∀ (tabs : List (String × String)) (seen : List String),
      (rs.foldl stepRec (tabs, seen)).1 =
        tabs ++ dedupKeepFirst ((rs.filter qualifies).filter
          (fun r => !seen.contains r.1)) := by
  induction rs with
  | nil =>
    intro tabs seen
    simp [dedupKeepFirst]
  | cons r rs ih =>
    intro tabs seen
    rcases hq : qualifies r with _ | _
    · -- non-qualifying record: skipped by the loop, dropped by the filter
      have hcond :
          (r.1 ≠ "" && !seen.contains r.1 && !pyStartsWith r.1 "chrome://")
            = false := by
        unfold qualifies at hq
        rcases hb : (decide (r.1 ≠ "") : Bool) <;>
          rcases hw : (!pyStartsWith r.1 "chrome://" : Bool) <;>
          simp [hb, hw] at hq ⊢
      show (rs.foldl stepRec (stepRec (tabs, seen) r)).1 = _
      have hstep : stepRec (tabs, seen) r = (tabs, seen) := by
        unfold stepRec
        rw [hcond]
        rfl
      rw [hstep, ih tabs seen, List.filter_cons_of_neg (by simp [hq])]
    · rcases hs : seen.contains r.1 with _ | _
      · -- qualifying and unseen: appended by the loop, kept by the dedup
        have hs' : r.1 ∉ seen := by simpa using hs
        have hcond :
            (r.1 ≠ "" && !seen.contains r.1 && !pyStartsWith r.1 "chrome://")
              = true := by
          unfold qualifies at hq
          rw [Bool.and_eq_true] at hq
          simp [hq.1, hq.2, hs']
        show (rs.foldl stepRec (stepRec (tabs, seen) r)).1 = _
        have hstep : stepRec (tabs, seen) r = (tabs ++ [r], r.1 :: seen) := by
          unfold stepRec
          rw [hcond]
          rfl
        rw [hstep, ih (tabs ++ [r]) (r.1 :: seen),
          List.filter_cons_of_pos (by simp [hq]),
          List.filter_cons_of_pos (by simp [hs']), dedupKeepFirst_cons]
        have hAB :
            (rs.filter qualifies).filter
                (fun x => !(r.1 :: seen).contains x.1) =
              ((rs.filter qualifies).filter
                (fun x => !seen.contains x.1)).filter
                  (fun x => x.1 ≠ r.1) := by
          conv_rhs => rw [List.filter_filter]
          refine List.filter_congr ?_
          intro a _
          by_cases hx : a.1 = r.1 <;> simp [hx, List.contains_cons]
        rw [hAB]
        simp
      · -- qualifying but already seen: skipped by the loop, dropped by
        -- the second filter
        have hs' : r.1 ∈ seen := by simpa using hs
        have hcond :
            (r.1 ≠ "" && !seen.contains r.1 && !pyStartsWith r.1 "chrome://")
              = false := by
          simp [hs']
        show (rs.foldl stepRec (stepRec (tabs, seen) r)).1 = _
        have hstep : stepRec (tabs, seen) r = (tabs, seen) := by
          unfold stepRec
          rw [hcond]
          rfl
        rw [hstep, ih tabs seen, List.filter_cons_of_pos (by simp [hq]),
          List.filter_cons_of_neg (by simp [hs'])]

/-- `collectAll` is exactly the first-occurrence deduplication of the
qualifying records of the priority-ordered flat stream. -/
theorem collectAll_dedup (snaps : String → SnapState) :
    collectAll snaps =
      dedupKeepFirst ((flatRecords snaps).filter qualifies) := by
  have h1 : collectAll snaps =
      ((flatRecords snaps).foldl stepRec ([], [])).1 := by
    unfold collectAll flatRecords session_files candidateRecords
    simp only [List.foldl_cons, List.foldl_nil, List.flatMap_cons,
      List.flatMap_nil, List.append_nil, processFile_foldRec,
      List.foldl_append]
    rcases h1 : snaps "Current Session" <;>
      rcases h2 : snaps "Last Session" <;>
      rcases h3 : snaps "Current Tabs" <;>
      rcases h4 : snaps "Last Tabs" <;>
      simp [recordsOfState]
  rw [h1, foldl_stepRec_dedup]
  simp

theorem dedupKeepFirst_subset :
    ∀ (l : List (String × String)) (x : String × String),
      x ∈ dedupKeepFirst l → x ∈ l
  | [], x => by simp [dedupKeepFirst]
  | r :: rs, x => by
    intro hx
    rw [dedupKeepFirst] at hx
    rcases List.mem_cons.1 hx with h | h
    · exact h ▸ List.mem_cons_self r rs
    · exact List.mem_cons_of_mem r
        (List.mem_of_mem_filter (dedupKeepFirst_subset _ x h))
  termination_by l => l.length
  decreasing_by
    simp only [List.length_cons]
    exact Nat.lt_succ_of_le (List.length_filter_le _ _)

theorem dedupKeepFirst_nodup :
    ∀ l : List (String × String),
      ((dedupKeepFirst l).map Prod.fst).Nodup
  | [] => by simp [dedupKeepFirst]
  | r :: rs => by
    rw [dedupKeepFirst]
    simp only [List.map_cons, List.nodup_cons]
    refine ⟨?_, dedupKeepFirst_nodup _⟩
    intro hmem
    obtain ⟨x, hx, hfst⟩ := List.mem_map.1 hmem
    have hf := List.of_mem_filter (dedupKeepFirst_subset _ x hx)
    simp only [decide_eq_true_eq] at hf
    exact hf hfst
  termination_by l => l.length
  decreasing_by
    simp only [List.length_cons]
    exact Nat.lt_succ_of_le (List.length_filter_le _ _)

/-- C4: across the candidate files in priority order (current-session,
last-session, current-tabs, last-tabs), the collected tab sequence is
the first-occurrence deduplication of the qualifying records of the
concatenated stream — each URL appears at most once, the kept entry is
the first encountered under the priority order, and records with an
empty or `chrome://` URL are excluded entirely; `extract_tabs` returns
exactly this sequence when it returns one. -/
theorem tabs_dedup_priority_order (snaps : String → SnapState) :
    collectAll snaps =
      dedupKeepFirst ((flatRecords snaps).filter qualifies) ∧
    ((collectAll snaps).map Prod.fst).Nodup ∧
    (∀ r ∈ collectAll snaps,
      r.1 ≠ "" ∧ pyStartsWith r.1 "chrome://" = false) ∧
    (∀ importOk, extract_tabs importOk snaps = none ∨
      extract_tabs importOk snaps = some (collectAll snaps)) := by
  refine ⟨collectAll_dedup snaps, ?_, ?_, ?_⟩
  · rw [collectAll_dedup snaps]
    exact dedupKeepFirst_nodup _
  · intro r hr
    rw [collectAll_dedup snaps] at hr
    have := List.of_mem_filter (dedupKeepFirst_subset _ r hr)
    unfold qualifies at this
    simp only [Bool.and_eq_true, decide_eq_true_eq, Bool.not_eq_true',
      ne_eq] at this
    exact ⟨this.1, this.2⟩
  · intro importOk
    unfold extract_tabs
    cases importOk
    · exact Or.inl rfl
    · simp only [Bool.not_true, Bool.false_eq_true, if_false]
      by_cases h : (collectAll snaps).isEmpty = true <;> simp [h]

/-- Witness for C4: a concrete collected record satisfies the URL
exclusions. -/
theorem tabs_dedup_priority_order_witness :
    ("https://a", "") ∈ collectAll
      (fun n => if n = "Current Session"
        then SnapState.ok [.nav "https://a" none] else .missing) ∧
    "https://a" ≠ "" ∧ pyStartsWith "https://a" "chrome://" = false := by
  have hc : collectAll
      (fun n => if n = "Current Session"
        then SnapState.ok [.nav "https://a" none] else .missing) =
      [("https://a", "")] := rfl
  have hmem : ("https://a", "") ∈ collectAll
      (fun n => if n = "Current Session"
        then SnapState.ok [.nav "https://a" none] else .missing) := by
    rw [hc]
    exact List.mem_singleton.2 rfl
  exact ⟨hmem, (tabs_dedup_priority_order _).2.2.1 _ hmem⟩

/-! ### Bookmark traversal agreement (claim C7) -/

theorem json_sizeOf_pos (n : Json) : 0 < sizeOf n := by
  cases n <;> simp_arith

theorem data_indentPfx (i : Nat) :
    (indentPfx i).data = List.replicate (4 * i) ' ' := by
  induction i with
  | zero => rfl
  | succ n ih =>
    show ((("    " : String) ++ indentPfx n)).data = _
    rw [String.data_append, ih,
      show 4 * (n + 1) = 4 + 4 * n from by omega, List.replicate_add]
    rfl

theorem dropWhile_replicate_space (k : Nat) (t : List Char) :
    (List.replicate k ' ' ++ '<' :: t).dropWhile (fun c => c = ' ') =
      '<' :: t := by
  induction k with
  | zero => simp [List.dropWhile]
  | succ n ih => simp [List.replicate_succ, List.dropWhile, ih]

theorem head_append_lt (a b : String) (h : a.data.head? = some '<') :
    (a ++ b).data.head? = some '<' := by
  rw [String.data_append]
  cases hx : a.data with
  | nil => simp [hx] at h
  | cons c t =>
    rw [hx] at h
    simp only [List.head?_cons, Option.some.injEq] at h
    simp [h]

theorem dls_line (i : Nat) (X : String) (h : X.data.head? = some '<') :
    dropLeadingSpaces (indentPfx i ++ X) = X := by
  unfold dropLeadingSpaces
  cases hx : X.data with
  | nil => simp [hx] at h
  | cons c t =>
    rw [hx] at h
    simp only [List.head?_cons, Option.some.injEq] at h
    subst h
    have hdata : (indentPfx i ++ X).data =
        List.replicate (4 * i) ' ' ++ '<' :: t := by
      rw [String.data_append, data_indentPfx, hx]
    rw [hdata, dropWhile_replicate_space]
    exact String.ext (by rw [hx])

theorem attach_flatMap_walk (cs : List Json) (d : Nat) :
    cs.attach.flatMap (fun c => walk_bookmarks c.1 d) =
      cs.flatMap (fun c => walk_bookmarks c d) := by
  rw [List.flatMap, List.flatMap]
  exact congrArg List.flatten
    (List.attach_map_coe cs (fun c => walk_bookmarks c d))

theorem dtPayloads_append (l₁ l₂ : List String) :
    dtPayloads (l₁ ++ l₂) = dtPayloads l₁ ++ dtPayloads l₂ := by
  simp [dtPayloads]

theorem dtPayloads_cons (x : String) (l : List String) :
    dtPayloads (x :: l) =
      (if isDTLine (dropLeadingSpaces x) then [dropLeadingSpaces x]
       else []) ++ dtPayloads l := by
  simp only [dtPayloads, List.map_cons, List.filter_cons]
  split <;> simp

theorem isDTLine_DTH3 (x y : String) :
    isDTLine ("<DT><H3>" ++ x ++ y) = true := by
  unfold isDTLine
  rw [String.data_append, String.data_append]
  simp [List.isPrefixOf,
    show ("<DT><H3>" : String).data =
      ['<', 'D', 'T', '>', '<', 'H', '3', '>'] from rfl]

theorem isDTLine_DTA (x y : String) :
    isDTLine ("<DT><A HREF=\"" ++ x ++ "\">" ++ y ++ "</A>") = true := by
  unfold isDTLine
  rw [String.data_append, String.data_append, String.data_append,
    String.data_append]
  simp [List.isPrefixOf,
    show ("<DT><A HREF=\"" : String).data =
      ['<', 'D', 'T', '>', '<', 'A', ' ', 'H', 'R', 'E', 'F', '=', '"']
      from rfl]

theorem head_DTH3 (x y : String) :
    ("<DT><H3>" ++ x ++ y).data.head? = some '<' :=
  head_append_lt _ y (head_append_lt _ x rfl)

theorem head_DTA (x y : String) :
    ("<DT><A HREF=\"" ++ x ++ "\">" ++ y ++ "</A>").data.head? =
      some '<' :=
  head_append_lt _ _ (head_append_lt _ y
    (head_append_lt _ _ (head_append_lt _ x rfl)))

theorem dt_walk_bounded (k : Nat) :
    ∀ n : Json, sizeOf n ≤ k → ∀ i d : Nat,
      dtPayloads (write_netscape_node n i) =
        (walk_bookmarks n d).map payloadOf := by
  induction k with
  | zero =>
    intro n hn
    exact absurd hn (by have := json_sizeOf_pos n; omega)
  | succ k ih =>
    intro n hn i d
    rw [write_netscape_node, walk_bookmarks]
    by_cases hf : nodeTypeIs n "folder" = true
    · simp only [hf, if_true]
      rw [attach_flatMap_write, attach_flatMap_walk]
      have hchild : ∀ cs : List Json, (∀ c ∈ cs, sizeOf c ≤ k) →
          dtPayloads (cs.flatMap (fun c => write_netscape_node c (i + 1))) =
            (cs.flatMap (fun c => walk_bookmarks c (d + 1))).map
              payloadOf := by
        intro cs
        induction cs with
        | nil => intro _; rfl
        | cons c cs ihc =>
          intro hcs
          simp only [List.flatMap_cons]
          rw [dtPayloads_append, List.map_append,
            ihc (fun x hx => hcs x (List.mem_cons_of_mem c hx)),
            ih c (hcs c (List.mem_cons_self c cs)) (i + 1) (d + 1)]
      have hsz : ∀ c ∈ nodeChildren n, sizeOf c ≤ k := by
        intro c hc
        have := sizeOf_nodeChildren hc
        omega
      rw [dtPayloads_cons, dtPayloads_cons, dtPayloads_append,
        dtPayloads_cons]
      have h1 : dropLeadingSpaces (indentPfx i ++ "<DT><H3>" ++
          esc (nodeStr n "name" "Untitled") ++ "</H3>") =
          "<DT><H3>" ++ esc (nodeStr n "name" "Untitled") ++ "</H3>" := by
        rw [String.append_assoc (indentPfx i),
          String.append_assoc (indentPfx i)]
        exact dls_line i _ (head_DTH3 _ _)
      have h2 : dropLeadingSpaces (indentPfx i ++ "<DL><p>") =
          "<DL><p>" := dls_line i _ rfl
      have h3 : dropLeadingSpaces (indentPfx i ++ "</DL><p>") =
          "</DL><p>" := dls_line i _ rfl
      rw [h1, h2, h3, isDTLine_DTH3, hchild (nodeChildren n) hsz]
      simp only [List.map_cons]
      rw [show isDTLine "<DL><p>" = false from by decide,
        show isDTLine "</DL><p>" = false from by decide]
      simp [payloadOf, List.map_flatMap, dtPayloads]
    · by_cases hu : nodeTypeIs n "url" = true
      · simp only [hf, hu, Bool.false_eq_true, if_false, if_true]
        rw [dtPayloads_cons]
        have h1 : dropLeadingSpaces (indentPfx i ++ "<DT><A HREF=\"" ++
            esc (nodeStr n "url" "") ++ "\">" ++
            esc (nodeStr n "name" "Untitled") ++ "</A>") =
            "<DT><A HREF=\"" ++ esc (nodeStr n "url" "") ++ "\">" ++
            esc (nodeStr n "name" "Untitled") ++ "</A>" := by
          rw [String.append_assoc (indentPfx i),
            String.append_assoc (indentPfx i),
            String.append_assoc (indentPfx i),
            String.append_assoc (indentPfx i)]
          exact dls_line i _ (head_DTA _ _)
        rw [h1, isDTLine_DTA]
        simp [dtPayloads, payloadOf]
      · simp [hf, hu, dtPayloads]

/-- The two renderers' traversals agree on every node. -/
theorem dt_walk_eq (n : Json) (i d : Nat) :
    dtPayloads (write_netscape_node n i) =
      (walk_bookmarks n d).map payloadOf :=
  dt_walk_bounded (sizeOf n) n le_rfl i d

theorem dt_roots (rs : List (String × Json)) :
    dtPayloads (rs.flatMap (fun kv => write_netscape_node kv.2 1)) =
      (rs.flatMap (fun kv => walk_bookmarks kv.2 0)).map payloadOf := by
  induction rs with
  | nil => rfl
  | cons kv rs ih =>
    simp only [List.flatMap_cons]
    rw [dtPayloads_append, List.map_append, ih, dt_walk_eq kv.2 1 0]

theorem items_of_falsy (j : Json) (h : pyTruthy j = false) :
    j.items = [] := by
  cases j <;> simp_all [pyTruthy, Json.items]

/-- C7: the Netscape export's entry lines (indentation stripped) are
exactly the payloads of the dashboard's walk records, in the same
order — both documents render every folder's children by the same
depth-first pre-order traversal in source order — and both traverse
exactly the roots whose names are not the internal
`"synced"`/`"sync_transaction_version"`; a folder's walk is itself
followed by its children in list order. -/
theorem bookmark_renderers_same_traversal (j : Json) :
    dtPayloads (netscapeBody (some j)) =
      (dashboardBookmarkRecords j).map payloadOf ∧
    (∀ kv : String × Json, kv ∈ filteredRoots j ↔
      (kv ∈ j.items ∧ kv.1 ≠ "synced" ∧
        kv.1 ≠ "sync_transaction_version")) ∧
    (∀ d, nodeTypeIs j "folder" = true →
      walk_bookmarks j d =
        ⟨d, .folder, nodeStr j "name" "Untitled", none⟩ ::
          (nodeChildren j).flatMap (fun c => walk_bookmarks c (d + 1))) := by
  refine ⟨?_, ?_, ?_⟩
  · unfold netscapeBody dashboardBookmarkRecords
    rcases ht : rootsTruthy (some j) with _ | _
    · have hitems : j.items = [] := items_of_falsy j ht
      simp [hitems, filteredRoots, dtPayloads]
    · simp only [ht, if_true]
      rw [show (some j).getD (Json.obj []) = j from rfl]
      exact dt_roots _
  · intro kv
    unfold filteredRoots
    rw [List.mem_filter]
    simp [not_or]
  · intro d hf
    rw [walk_bookmarks]
    simp only [hf, if_true]
    rw [attach_flatMap_walk]

/-- Witness for C7 at the two-level tree of the spec's scenario. -/
theorem bookmark_renderers_same_traversal_witness :
    walk_bookmarks
      (Json.obj [("type", Json.str "folder"), ("name", Json.str "Bar"),
        ("children", Json.arr [Json.obj [("type", Json.str "url"),
          ("name", Json.str "Ex"),
          ("url", Json.str "https://example.com")]])]) 0 =
      ⟨0, .folder,
        nodeStr (Json.obj [("type", Json.str "folder"),
          ("name", Json.str "Bar"),
          ("children", Json.arr [Json.obj [("type", Json.str "url"),
            ("name", Json.str "Ex"),
            ("url", Json.str "https://example.com")]])]) "name" "Untitled",
        none⟩ ::
      (nodeChildren (Json.obj [("type", Json.str "folder"),
        ("name", Json.str "Bar"),
        ("children", Json.arr [Json.obj [("type", Json.str "url"),
          ("name", Json.str "Ex"),
          ("url", Json.str "https://example.com")]])])).flatMap
        (fun c => walk_bookmarks c (0 + 1)) :=
  (bookmark_renderers_same_traversal _).2.2 0 rfl

end ChromeRecovery
